import Mathlib

/-!
Verification of the mood-journal data-access layer.

Shallow embedding of the Astro actions in `src/unnamed/part_000` (the `server`
object: createEntry, updateEntry, deleteEntry, getEntry, listEntries,
createPrompt, updatePrompt, listPrompts) over the tables declared in
`src/db/tables.ts` (MoodJournalEntries, MoodPrompts).

Modelling conventions:
- Dates (`Date` values and `z.string().date()` inputs) are modelled as `Nat`
  timestamps; a valid date string is never empty, so the JavaScript truthiness
  test `if (input.entryDate)` coincides with presence of the optional field,
  which we model with `Option Nat`.
- A zod field `z.T().nullable().optional()` has three states (absent, null,
  value); it is modelled as `Option (Option T)`: the outer option is key
  presence (`Object.hasOwn`), the inner option is `null` vs value. A plain
  `.optional()` field is `Option T`. JSON has no `undefined` value, so a
  present key always carries a real value.
- The request context is `Option User`: `locals.user` present or absent.
- The store (astro:db over the two tables) is a pair of row lists. `select`
  with a `where` filter is `List.filter` (first row = `head?`), `insert` is
  append, `update ... set ... where` patches every matching row in place,
  `delete ... where` removes matching rows, and `orderBy(desc(col))` is
  `sortByDesc` below. Per the spec's store interface, equality filtering on an
  optional column includes the is-null comparison, so `eq(col, null)` matches
  rows whose column is absent (`Option.none`).
- `crypto.randomUUID()` and `new Date()` are passed in as explicit `freshId`
  and `now` parameters.
- `ActionError` codes: the source throws `UNAUTHORIZED` and `NOT_FOUND`.
-/

namespace MoodJournal

/-- A resolved caller identity (`locals.user`), with its stable `id`. -/
structure User where
  id : String
  deriving DecidableEq, Repr

/-- The two `ActionError` codes thrown by the handlers. -/
inductive ActionError where
  | unauthorized
  | notFound
  deriving DecidableEq, Repr

/-- A row of `MoodJournalEntries` (src/db/tables.ts, lines 11-27).
`entryDate`, `createdAt`, `updatedAt` are non-optional date columns; the
mood/text columns are optional (nullable). -/
structure Entry where
  id : String
  userId : String
  entryDate : Nat
  moodScore : Option Int
  moodLabel : Option String
  tags : Option String
  title : Option String
  body : Option String
  promptId : Option String
  createdAt : Nat
  updatedAt : Nat
  deriving DecidableEq, Repr

/-- A row of `MoodPrompts` (src/db/tables.ts, lines 29-44). `userId` is an
optional column: `none` means a global/system prompt. -/
structure Prompt where
  id : String
  userId : Option String
  title : String
  promptText : String
  category : Option String
  isSystem : Bool
  isActive : Bool
  createdAt : Nat
  updatedAt : Nat
  deriving DecidableEq, Repr

/-- The database state: the rows of the two tables. -/
structure Store where
  entries : List Entry
  prompts : List Prompt
  deriving DecidableEq, Repr

/-- Insert `a` into `l` keeping keys in (weakly) decreasing order. -/
def insertDesc (key : α → Nat) (a : α) : List α → List α
  | [] => [a]
  | b :: l => if key b < key a then a :: b :: l else b :: insertDesc key a l

/-- Insertion sort by decreasing key: models `orderBy(desc(col))`. -/
def sortByDesc (key : α → Nat) : List α → List α
  | [] => []
  | a :: l => insertDesc key a (sortByDesc key l)

/-- The authorization guard (src/unnamed/part_000, lines 14-26): resolve
`locals.user`, throwing `UNAUTHORIZED` when absent. -/
def requireUser (ctx : Option User) : Except ActionError User :=
  match ctx with
  | none => .error .unauthorized
  | some user => .ok user

/-- Input of `createEntry` (lines 30-38). All fields optional; all but
`entryDate` are also nullable. -/
structure CreateEntryInput where
  entryDate : Option Nat := none
  moodScore : Option (Option Int) := none
  moodLabel : Option (Option String) := none
  tags : Option (Option String) := none
  title : Option (Option String) := none
  body : Option (Option String) := none
  promptId : Option (Option String) := none
  deriving DecidableEq, Repr

/-- The record built by `createEntry` (lines 43-55): fresh id, caller as
owner, `entryDate` defaulted to `now` when not given, `?? null` collapsing
absent/null to null, and both timestamps stamped to `now`. -/
def mkEntry (uid : String) (input : CreateEntryInput) (freshId : String) (now : Nat) : Entry :=
  { id := freshId
    userId := uid
    entryDate := input.entryDate.getD now
    moodScore := input.moodScore.join
    moodLabel := input.moodLabel.join
    tags := input.tags.join
    title := input.title.join
    body := input.body.join
    promptId := input.promptId.join
    createdAt := now
    updatedAt := now }

/-- Handler of `createEntry` (lines 39-63). -/
def createEntry (ctx : Option User) (input : CreateEntryInput) (freshId : String) (now : Nat)
    (s : Store) : Except ActionError Entry × Store :=
  match requireUser ctx with
  | .error e => (.error e, s)
  | .ok user =>
    let entry := mkEntry user.id input freshId now
    (.ok entry, { s with entries := s.entries ++ [entry] })

/-- The `where` clause `and(eq(id, input.id), eq(userId, user.id))` used by
updateEntry, deleteEntry and getEntry. -/
def entryKeyMatch (id uid : String) (e : Entry) : Bool :=
  e.id == id && e.userId == uid

/-- Input of `updateEntry` (lines 67-76): id required, the rest as in
`createEntry`. -/
structure UpdateEntryInput where
  id : String
  entryDate : Option Nat := none
  moodScore : Option (Option Int) := none
  moodLabel : Option (Option String) := none
  tags : Option (Option String) := none
  title : Option (Option String) := none
  body : Option (Option String) := none
  promptId : Option (Option String) := none
  deriving DecidableEq, Repr

/-- The sparse `updateData` object of `updateEntry` (lines 99-129): a field is
present in the patch exactly when it is to be written by `.set`. -/
structure EntryPatch where
  updatedAt : Nat
  entryDate : Option Nat := none
  moodScore : Option (Option Int) := none
  moodLabel : Option (Option String) := none
  tags : Option (Option String) := none
  title : Option (Option String) := none
  body : Option (Option String) := none
  promptId : Option (Option String) := none
  deriving DecidableEq, Repr

/-- Builds `updateData` (lines 99-129). `updatedAt` is always set to now.
`entryDate` is written when the (never-empty) date string is given
(`if (input.entryDate)`). Each nullable field is written exactly when its key
is present (`Object.hasOwn`), with `?? null` keeping an explicit null — with
the `Option (Option _)` encoding both are the identity on the input field. -/
def entryUpdateData (input : UpdateEntryInput) (now : Nat) : EntryPatch :=
  { updatedAt := now
    entryDate := input.entryDate
    moodScore := input.moodScore
    moodLabel := input.moodLabel
    tags := input.tags
    title := input.title
    body := input.body
    promptId := input.promptId }

/-- The effect of `db.update(...).set(updateData)` on one matching row:
fields present in the patch overwrite, absent fields are untouched. -/
def applyEntryPatch (p : EntryPatch) (e : Entry) : Entry :=
  { e with
    updatedAt := p.updatedAt
    entryDate := p.entryDate.getD e.entryDate
    moodScore := p.moodScore.getD e.moodScore
    moodLabel := p.moodLabel.getD e.moodLabel
    tags := p.tags.getD e.tags
    title := p.title.getD e.title
    body := p.body.getD e.body
    promptId := p.promptId.getD e.promptId }

/-- The row transformation of the `db.update(...).set(...).where(...)`
statement: rows matching the (id, userId) filter receive the patch, other
rows are untouched. -/
def entryStep (id uid : String) (p : EntryPatch) (e : Entry) : Entry :=
  if entryKeyMatch id uid e then applyEntryPatch p e else e

/-- Handler of `updateEntry` (lines 77-145): load by (id, userId), NOT_FOUND
when absent, else apply the sparse patch via an update filtered by the same
(id, userId) pair, and return the id. -/
def updateEntry (ctx : Option User) (input : UpdateEntryInput) (now : Nat)
    (s : Store) : Except ActionError String × Store :=
  match requireUser ctx with
  | .error e => (.error e, s)
  | .ok user =>
    match (s.entries.filter (entryKeyMatch input.id user.id)).head? with
    | none => (.error .notFound, s)
    | some _ =>
      let updateData := entryUpdateData input now
      (.ok input.id,
        { s with entries := s.entries.map (entryStep input.id user.id updateData) })

/-- Input of `deleteEntry` and `getEntry` (lines 149-151, 190-192). -/
structure EntryIdInput where
  id : String
  deriving DecidableEq, Repr

/-- Handler of `deleteEntry` (lines 152-186): load by (id, userId), NOT_FOUND
when absent, else delete filtered by the same pair; bare success. -/
def deleteEntry (ctx : Option User) (input : EntryIdInput)
    (s : Store) : Except ActionError Unit × Store :=
  match requireUser ctx with
  | .error e => (.error e, s)
  | .ok user =>
    match (s.entries.filter (entryKeyMatch input.id user.id)).head? with
    | none => (.error .notFound, s)
    | some _ =>
      (.ok (),
        { s with entries := s.entries.filter fun e => !entryKeyMatch input.id user.id e })

/-- Handler of `getEntry` (lines 193-219): load by (id, userId), NOT_FOUND
when absent, else return the full record. -/
def getEntry (ctx : Option User) (input : EntryIdInput)
    (s : Store) : Except ActionError Entry × Store :=
  match requireUser ctx with
  | .error e => (.error e, s)
  | .ok user =>
    match (s.entries.filter (entryKeyMatch input.id user.id)).head? with
    | none => (.error .notFound, s)
    | some entry => (.ok entry, s)

/-- Input of `listEntries` (lines 223-226) after zod defaulting: page defaults
to 1, pageSize to 20; zod enforces page ≥ 1 and 1 ≤ pageSize ≤ 100. -/
structure ListEntriesInput where
  page : Nat := 1
  pageSize : Nat := 20
  deriving DecidableEq, Repr

/-- Success payload of `listEntries` (lines 245-253). -/
structure ListEntriesResult where
  items : List Entry
  total : Nat
  page : Nat
  pageSize : Nat
  deriving DecidableEq, Repr

/-- Handler of `listEntries` (lines 227-254): offset = (page-1)*pageSize;
one query selects the caller's entries ordered by entryDate descending with
LIMIT pageSize OFFSET offset (drop then take); a second query counts all of
the caller's entries. -/
def listEntries (ctx : Option User) (input : ListEntriesInput)
    (s : Store) : Except ActionError ListEntriesResult × Store :=
  match requireUser ctx with
  | .error e => (.error e, s)
  | .ok user =>
    let offset := (input.page - 1) * input.pageSize
    let items :=
      ((sortByDesc Entry.entryDate (s.entries.filter fun e => e.userId == user.id)).drop
        offset).take input.pageSize
    let total := (s.entries.filter fun e => e.userId == user.id).length
    (.ok { items := items, total := total, page := input.page, pageSize := input.pageSize }, s)

/-- Input of `createPrompt` (lines 258-263): title and promptText required
(zod: non-empty, length-bounded), category nullable-optional, isActive
optional. There is no `isSystem` field. -/
structure CreatePromptInput where
  title : String
  promptText : String
  category : Option (Option String) := none
  isActive : Option Bool := none
  deriving DecidableEq, Repr

/-- The record built by `createPrompt` (lines 268-278): fresh id, caller as
owner, `isSystem` hard-coded to false, `isActive` defaulted to true. -/
def mkPrompt (uid : String) (input : CreatePromptInput) (freshId : String) (now : Nat) : Prompt :=
  { id := freshId
    userId := some uid
    title := input.title
    promptText := input.promptText
    category := input.category.join
    isSystem := false
    isActive := input.isActive.getD true
    createdAt := now
    updatedAt := now }

/-- Handler of `createPrompt` (lines 264-286). -/
def createPrompt (ctx : Option User) (input : CreatePromptInput) (freshId : String) (now : Nat)
    (s : Store) : Except ActionError Prompt × Store :=
  match requireUser ctx with
  | .error e => (.error e, s)
  | .ok user =>
    let prompt := mkPrompt user.id input freshId now
    (.ok prompt, { s with prompts := s.prompts ++ [prompt] })

/-- The `where` clause `and(eq(id, input.id), eq(userId, user.id))` of
updatePrompt; `user.id` is a string, so a global prompt (userId none) never
matches. -/
def promptKeyMatch (id uid : String) (p : Prompt) : Bool :=
  p.id == id && p.userId == some uid

/-- Input of `updatePrompt` (lines 290-296). -/
structure UpdatePromptInput where
  id : String
  title : Option String := none
  promptText : Option String := none
  category : Option (Option String) := none
  isActive : Option Bool := none
  deriving DecidableEq, Repr

/-- The sparse `updateData` object of `updatePrompt` (lines 319-337). -/
structure PromptPatch where
  updatedAt : Nat
  title : Option String := none
  promptText : Option String := none
  category : Option (Option String) := none
  isActive : Option Bool := none
  deriving DecidableEq, Repr

/-- Builds `updateData` (lines 319-337). `title` and `promptText` use the
truthiness test `if (input.title)`: written when present and non-empty (zod
already rejects empty strings). `category` and `isActive` use `Object.hasOwn`:
written exactly when the key is present. -/
def promptUpdateData (input : UpdatePromptInput) (now : Nat) : PromptPatch :=
  { updatedAt := now
    title :=
      match input.title with
      | some t => if t.isEmpty then none else some t
      | none => none
    promptText :=
      match input.promptText with
      | some t => if t.isEmpty then none else some t
      | none => none
    category := input.category
    isActive := input.isActive }

/-- The effect of `db.update(MoodPrompts).set(updateData)` on one matching
row. `userId` and `isSystem` are never part of the patch. -/
def applyPromptPatch (p : PromptPatch) (q : Prompt) : Prompt :=
  { q with
    updatedAt := p.updatedAt
    title := p.title.getD q.title
    promptText := p.promptText.getD q.promptText
    category := p.category.getD q.category
    isActive := p.isActive.getD q.isActive }

/-- The row transformation of updatePrompt's update statement. -/
def promptStep (id uid : String) (p : PromptPatch) (q : Prompt) : Prompt :=
  if promptKeyMatch id uid q then applyPromptPatch p q else q

/-- Handler of `updatePrompt` (lines 297-354). -/
def updatePrompt (ctx : Option User) (input : UpdatePromptInput) (now : Nat)
    (s : Store) : Except ActionError String × Store :=
  match requireUser ctx with
  | .error e => (.error e, s)
  | .ok user =>
    match (s.prompts.filter (promptKeyMatch input.id user.id)).head? with
    | none => (.error .notFound, s)
    | some _ =>
      let updateData := promptUpdateData input now
      (.ok input.id,
        { s with prompts := s.prompts.map (promptStep input.id user.id updateData) })

/-- Input of `listPrompts` (lines 357-359). -/
structure ListPromptsInput where
  includeInactive : Option Bool := none
  deriving DecidableEq, Repr

/-- Success payload of `listPrompts` (lines 377-383). -/
structure ListPromptsResult where
  items : List Prompt
  total : Nat
  deriving DecidableEq, Repr

/-- The `ownershipFilter` of listPrompts (lines 362-365):
`or(eq(userId, user.id), eq(userId, null))`. -/
def promptVisible (uid : String) (p : Prompt) : Bool :=
  p.userId == some uid || p.userId == none

/-- Handler of `listPrompts` (lines 360-384): visibility filter, and the
active filter unless `includeInactive` is truthy; ordered by createdAt
descending; total is the length of the returned set. -/
def listPrompts (ctx : Option User) (input : ListPromptsInput)
    (s : Store) : Except ActionError ListPromptsResult × Store :=
  match requireUser ctx with
  | .error e => (.error e, s)
  | .ok user =>
    let combinedFilter : Prompt → Bool :=
      if input.includeInactive.getD false then
        fun p => promptVisible user.id p
      else
        fun p => p.isActive && promptVisible user.id p
    let prompts := sortByDesc Prompt.createdAt (s.prompts.filter combinedFilter)
    (.ok { items := prompts, total := prompts.length }, s)

/-- One invocation of the public API, with its request context and the
nondeterministic fresh id / clock values supplied by the environment. -/
inductive ApiOp where
  | doCreateEntry (ctx : Option User) (input : CreateEntryInput) (freshId : String) (now : Nat)
  | doUpdateEntry (ctx : Option User) (input : UpdateEntryInput) (now : Nat)
  | doDeleteEntry (ctx : Option User) (input : EntryIdInput)
  | doGetEntry (ctx : Option User) (input : EntryIdInput)
  | doListEntries (ctx : Option User) (input : ListEntriesInput)
  | doCreatePrompt (ctx : Option User) (input : CreatePromptInput) (freshId : String) (now : Nat)
  | doUpdatePrompt (ctx : Option User) (input : UpdatePromptInput) (now : Nat)
  | doListPrompts (ctx : Option User) (input : ListPromptsInput)
  deriving Repr

/-- The store after one API call. -/
def runOp (s : Store) : ApiOp → Store
  | .doCreateEntry ctx input freshId now => (createEntry ctx input freshId now s).2
  | .doUpdateEntry ctx input now => (updateEntry ctx input now s).2
  | .doDeleteEntry ctx input => (deleteEntry ctx input s).2
  | .doGetEntry ctx input => (getEntry ctx input s).2
  | .doListEntries ctx input => (listEntries ctx input s).2
  | .doCreatePrompt ctx input freshId now => (createPrompt ctx input freshId now s).2
  | .doUpdatePrompt ctx input now => (updatePrompt ctx input now s).2
  | .doListPrompts ctx input => (listPrompts ctx input s).2

/-- The store after a sequence of API calls. -/
def runOps (s : Store) : List ApiOp → Store
  | [] => s
  | op :: ops => runOps (runOp s op) ops

/-! Helper lemmas about the descending-order sort and the key filters. -/

theorem mem_insertDesc {key : α → Nat} {a x : α} {l : List α} :
    x ∈ insertDesc key a l ↔ x = a ∨ x ∈ l := by
  induction l with
  | nil => simp [insertDesc]
  | cons b l ih =>
    by_cases h : key b < key a
    · simp [insertDesc, h]
    · simp [insertDesc, h, ih]
      tauto

theorem mem_sortByDesc {key : α → Nat} {x : α} {l : List α} :
    x ∈ sortByDesc key l ↔ x ∈ l := by
  induction l with
  | nil => simp [sortByDesc]
  | cons a l ih => simp [sortByDesc, mem_insertDesc, ih]

theorem length_insertDesc (key : α → Nat) (a : α) (l : List α) :
    (insertDesc key a l).length = l.length + 1 := by
  induction l with
  | nil => simp [insertDesc]
  | cons b l ih =>
    by_cases h : key b < key a
    · simp [insertDesc, h]
    · simp [insertDesc, h, ih]

theorem length_sortByDesc (key : α → Nat) (l : List α) :
    (sortByDesc key l).length = l.length := by
  induction l with
  | nil => rfl
  | cons a l ih => simp [sortByDesc, length_insertDesc, ih]

theorem pairwise_insertDesc {key : α → Nat} {a : α} {l : List α}
    (h : List.Pairwise (fun x y => key y ≤ key x) l) :
    List.Pairwise (fun x y => key y ≤ key x) (insertDesc key a l) := by
  induction l with
  | nil => simp [insertDesc]
  | cons b l ih =>
    rcases List.pairwise_cons.mp h with ⟨hb, hl⟩
    by_cases hc : key b < key a
    · rw [insertDesc, if_pos hc]
      refine List.pairwise_cons.mpr ⟨?_, h⟩
      intro y hy
      rcases List.mem_cons.mp hy with rfl | hy
      · omega
      · have := hb y hy
        omega
    · rw [insertDesc, if_neg hc]
      refine List.pairwise_cons.mpr ⟨?_, ih hl⟩
      intro y hy
      rcases mem_insertDesc.mp hy with rfl | hy
      · omega
      · exact hb y hy

theorem pairwise_sortByDesc (key : α → Nat) (l : List α) :
    List.Pairwise (fun x y => key y ≤ key x) (sortByDesc key l) := by
  induction l with
  | nil => simp [sortByDesc]
  | cons a l ih => exact pairwise_insertDesc ih

theorem getD_getD (o : Option α) (x : α) : o.getD (o.getD x) = o.getD x := by
  cases o <;> rfl

theorem entryKeyMatch_iff {id uid : String} {e : Entry} :
    entryKeyMatch id uid e = true ↔ e.id = id ∧ e.userId = uid := by
  simp [entryKeyMatch]

theorem promptKeyMatch_iff {id uid : String} {p : Prompt} :
    promptKeyMatch id uid p = true ↔ p.id = id ∧ p.userId = some uid := by
  simp [promptKeyMatch]

theorem filter_head?_eq_none {p : α → Bool} {l : List α} (h : ∀ x ∈ l, p x = false) :
    (l.filter p).head? = none := by
  induction l with
  | nil => rfl
  | cons a l ih =>
    have ha := h a (by simp)
    simp only [List.filter_cons, ha, Bool.false_eq_true, if_false]
    exact ih fun x hx => h x (by simp [hx])

/-- C2: every operation invoked with no resolvable user identity fails with
the Unauthenticated (`UNAUTHORIZED`) error and leaves the store untouched. -/
theorem unauthenticated_all_ops_rejected :
    (∀ (input : CreateEntryInput) (freshId : String) (now : Nat) (s : Store),
      createEntry none input freshId now s = (.error .unauthorized, s)) ∧
    (∀ (input : UpdateEntryInput) (now : Nat) (s : Store),
      updateEntry none input now s = (.error .unauthorized, s)) ∧
    (∀ (input : EntryIdInput) (s : Store),
      deleteEntry none input s = (.error .unauthorized, s)) ∧
    (∀ (input : EntryIdInput) (s : Store),
      getEntry none input s = (.error .unauthorized, s)) ∧
    (∀ (input : ListEntriesInput) (s : Store),
      listEntries none input s = (.error .unauthorized, s)) ∧
    (∀ (input : CreatePromptInput) (freshId : String) (now : Nat) (s : Store),
      createPrompt none input freshId now s = (.error .unauthorized, s)) ∧
    (∀ (input : UpdatePromptInput) (now : Nat) (s : Store),
      updatePrompt none input now s = (.error .unauthorized, s)) ∧
    (∀ (input : ListPromptsInput) (s : Store),
      listPrompts none input s = (.error .unauthorized, s)) :=
  ⟨fun _ _ _ _ => rfl, fun _ _ _ => rfl, fun _ _ => rfl, fun _ _ => rfl,
    fun _ _ => rfl, fun _ _ _ _ => rfl, fun _ _ _ => rfl, fun _ _ => rfl⟩

/-- C3: when no record with the given id is owned by the caller (it does not
exist, or belongs to someone else), getEntry, updateEntry, deleteEntry and
updatePrompt all fail with NotFound, never return the record, and leave the
store completely unchanged. -/
theorem crossOwner_notFound (user : User) (id : String) (s : Store)
    (hE : ∀ e ∈ s.entries, e.id = id → e.userId ≠ user.id)
    (hP : ∀ p ∈ s.prompts, p.id = id → p.userId ≠ some user.id) :
    getEntry (some user) ⟨id⟩ s = (.error .notFound, s) ∧
    (∀ (input : UpdateEntryInput) (now : Nat), input.id = id →
      updateEntry (some user) input now s = (.error .notFound, s)) ∧
    deleteEntry (some user) ⟨id⟩ s = (.error .notFound, s) ∧
    (∀ (input : UpdatePromptInput) (now : Nat), input.id = id →
      updatePrompt (some user) input now s = (.error .notFound, s)) := by
  have hfE : ∀ e ∈ s.entries, entryKeyMatch id user.id e = false := by
    intro e he
    rw [Bool.eq_false_iff]
    intro hek
    rcases entryKeyMatch_iff.mp hek with ⟨h1, h2⟩
    exact hE e he h1 h2
  have hfP : ∀ p ∈ s.prompts, promptKeyMatch id user.id p = false := by
    intro p hp
    rw [Bool.eq_false_iff]
    intro hpk
    rcases promptKeyMatch_iff.mp hpk with ⟨h1, h2⟩
    exact hP p hp h1 h2
  refine ⟨?_, ?_, ?_, ?_⟩
  · simp [getEntry, requireUser, filter_head?_eq_none hfE]
  · intro input now hid
    subst hid
    simp [updateEntry, requireUser, filter_head?_eq_none hfE]
  · simp [deleteEntry, requireUser, filter_head?_eq_none hfE]
  · intro input now hid
    subst hid
    simp [updatePrompt, requireUser, filter_head?_eq_none hfP]

/-- A concrete entry owned by user u1, used by witnesses. -/
def wEntry : Entry :=
  { id := "e1", userId := "u1", entryDate := 10, moodScore := some 5,
    moodLabel := some "calm", tags := none, title := some "day one", body := none,
    promptId := none, createdAt := 1, updatedAt := 1 }

/-- A concrete prompt owned by user u1, used by witnesses. -/
def wPrompt : Prompt :=
  { id := "p1", userId := some "u1", title := "Gratitude", promptText := "What went well?",
    category := none, isSystem := false, isActive := true, createdAt := 1, updatedAt := 1 }

/-- A concrete store holding `wEntry` and `wPrompt`, used by witnesses. -/
def wStore : Store := { entries := [wEntry], prompts := [wPrompt] }

/-- Witness for C3: caller u2 hits NotFound on u1's entry e1 and prompt p1,
with the store unchanged. -/
theorem crossOwner_notFound_witness :
    getEntry (some ⟨"u2"⟩) ⟨"e1"⟩ wStore = (.error .notFound, wStore) ∧
    updateEntry (some ⟨"u2"⟩) { id := "e1" } 5 wStore = (.error .notFound, wStore) ∧
    deleteEntry (some ⟨"u2"⟩) ⟨"e1"⟩ wStore = (.error .notFound, wStore) ∧
    updatePrompt (some ⟨"u2"⟩) { id := "p1" } 5 wStore = (.error .notFound, wStore) := by
  have h1 := crossOwner_notFound ⟨"u2"⟩ "e1" wStore (by decide) (by decide)
  have h2 := crossOwner_notFound ⟨"u2"⟩ "p1" wStore (by decide) (by decide)
  exact ⟨h1.1, h1.2.1 { id := "e1" } 5 rfl, h1.2.2.1, h2.2.2.2 { id := "p1" } 5 rfl⟩

/-- C1: for an authenticated caller, listPrompts with includeInactive unset or
false returns exactly the prompts that are owned by the caller or global
(userId absent) and have isActive = true; with includeInactive = true the
isActive condition is dropped, so an inactive global prompt reappears. -/
theorem listPrompts_visibility (user : User) (s : Store) :
    (∀ inc : Option Bool, inc = none ∨ inc = some false →
      ∃ r, listPrompts (some user) ⟨inc⟩ s = (.ok r, s) ∧
        ∀ p, p ∈ r.items ↔
          p ∈ s.prompts ∧ (p.userId = some user.id ∨ p.userId = none) ∧ p.isActive = true) ∧
    (∃ r, listPrompts (some user) ⟨some true⟩ s = (.ok r, s) ∧
      ∀ p, p ∈ r.items ↔ p ∈ s.prompts ∧ (p.userId = some user.id ∨ p.userId = none)) := by
  constructor
  · rintro inc (rfl | rfl) <;>
    · refine ⟨_, rfl, ?_⟩
      intro p
      show p ∈ sortByDesc Prompt.createdAt (s.prompts.filter _) ↔ _
      rw [mem_sortByDesc, List.mem_filter]
      simp [promptVisible, and_comm]
  · refine ⟨_, rfl, ?_⟩
    intro p
    show p ∈ sortByDesc Prompt.createdAt (s.prompts.filter _) ↔ _
    rw [mem_sortByDesc, List.mem_filter]
    simp [promptVisible]

/-- A concrete active global (system-seeded) prompt, used by witnesses. -/
def wGlobalPrompt : Prompt :=
  { id := "g1", userId := none, title := "Daily check-in", promptText := "How do you feel?",
    category := some "reflection", isSystem := true, isActive := true,
    createdAt := 2, updatedAt := 2 }

/-- A concrete store holding the global prompt alongside u1's data. -/
def wStoreG : Store := { entries := [wEntry], prompts := [wPrompt, wGlobalPrompt] }

/-- Witness for C1: for caller u1 over a store with one active global prompt,
that prompt is in the default listing, in the explicit includeInactive=false
listing, and in the includeInactive=true listing. -/
theorem listPrompts_visibility_witness :
    ∃ g : Prompt, g.userId = none ∧ g.isActive = true ∧ g ∈ wStoreG.prompts ∧
      (∃ r, listPrompts (some ⟨"u1"⟩) ⟨none⟩ wStoreG = (.ok r, wStoreG) ∧ g ∈ r.items) ∧
      (∃ r, listPrompts (some ⟨"u1"⟩) ⟨some false⟩ wStoreG = (.ok r, wStoreG) ∧ g ∈ r.items) ∧
      (∃ r, listPrompts (some ⟨"u1"⟩) ⟨some true⟩ wStoreG = (.ok r, wStoreG) ∧ g ∈ r.items) := by
  have h := listPrompts_visibility ⟨"u1"⟩ wStoreG
  refine ⟨wGlobalPrompt, rfl, rfl, by decide, ?_, ?_, ?_⟩
  · rcases h.1 none (Or.inl rfl) with ⟨r, hr, hiff⟩
    exact ⟨r, hr, (hiff wGlobalPrompt).mpr (by decide)⟩
  · rcases h.1 (some false) (Or.inr rfl) with ⟨r, hr, hiff⟩
    exact ⟨r, hr, (hiff wGlobalPrompt).mpr (by decide)⟩
  · rcases h.2 with ⟨r, hr, hiff⟩
    exact ⟨r, hr, (hiff wGlobalPrompt).mpr (by decide)⟩

theorem filter_eq_nil_of_false {p : α → Bool} {l : List α} (h : ∀ x ∈ l, p x = false) :
    l.filter p = [] := by
  induction l with
  | nil => rfl
  | cons a l ih =>
    have ha := h a (by simp)
    simp only [List.filter_cons, ha, Bool.false_eq_true, if_false]
    exact ih fun x hx => h x (by simp [hx])

theorem filter_head?_eq_some {p : α → Bool} {l : List α} (h : ∃ x ∈ l, p x = true) :
    ∃ y, (l.filter p).head? = some y := by
  rcases h with ⟨x, hx, hpx⟩
  have hmem : x ∈ l.filter p := List.mem_filter.mpr ⟨hx, hpx⟩
  cases hf : l.filter p with
  | nil => rw [hf] at hmem; cases hmem
  | cons a t => exact ⟨a, rfl⟩

/-- C6: createEntry immediately followed by getEntry on the returned id, by
the same caller and with a fresh id, returns a record equal to the created
one in every field, including the server-assigned id and timestamps. -/
theorem create_then_get (user : User) (input : CreateEntryInput) (freshId : String) (now : Nat)
    (s : Store) (hFresh : ∀ e ∈ s.entries, e.id ≠ freshId) :
    ∃ entry s2,
      createEntry (some user) input freshId now s = (.ok entry, s2) ∧
      getEntry (some user) ⟨freshId⟩ s2 = (.ok entry, s2) ∧
      entry = mkEntry user.id input freshId now ∧
      entry.id = freshId ∧ entry.userId = user.id ∧
      entry.createdAt = now ∧ entry.updatedAt = now := by
  refine ⟨mkEntry user.id input freshId now,
    { s with entries := s.entries ++ [mkEntry user.id input freshId now] },
    rfl, ?_, rfl, rfl, rfl, rfl, rfl⟩
  have hnil : s.entries.filter (entryKeyMatch freshId user.id) = [] := by
    apply filter_eq_nil_of_false
    intro e he
    rw [Bool.eq_false_iff]
    intro hek
    exact hFresh e he (entryKeyMatch_iff.mp hek).1
  have hmatch : entryKeyMatch freshId user.id (mkEntry user.id input freshId now) = true := by
    simp [entryKeyMatch, mkEntry]
  simp [getEntry, requireUser, List.filter_append, hnil, hmatch]

/-- Witness for C6: creating an entry with id e9 in the concrete store and
reading it back succeeds with the very same record. -/
theorem create_then_get_witness :
    ∃ entry s2,
      createEntry (some ⟨"u1"⟩) {} "e9" 42 wStore = (.ok entry, s2) ∧
      getEntry (some ⟨"u1"⟩) ⟨"e9"⟩ s2 = (.ok entry, s2) ∧
      entry = mkEntry "u1" {} "e9" 42 ∧
      entry.id = "e9" ∧ entry.userId = "u1" ∧
      entry.createdAt = 42 ∧ entry.updatedAt = 42 :=
  create_then_get ⟨"u1"⟩ {} "e9" 42 wStore (by decide)

/-- C8: every prompt stored by createPrompt has isSystem = false (the input
carries no such field), isActive equal to the given value or true when
unspecified, the fresh server id, equal creation timestamps, the caller as
owner, and the full record is returned. -/
theorem createPrompt_fields (user : User) (input : CreatePromptInput) (freshId : String)
    (now : Nat) (s : Store) :
    createPrompt (some user) input freshId now s =
      (.ok (mkPrompt user.id input freshId now),
        { s with prompts := s.prompts ++ [mkPrompt user.id input freshId now] }) ∧
    (mkPrompt user.id input freshId now).isSystem = false ∧
    (input.isActive = none → (mkPrompt user.id input freshId now).isActive = true) ∧
    (∀ b, input.isActive = some b → (mkPrompt user.id input freshId now).isActive = b) ∧
    (mkPrompt user.id input freshId now).id = freshId ∧
    (mkPrompt user.id input freshId now).userId = some user.id ∧
    (mkPrompt user.id input freshId now).createdAt = now ∧
    (mkPrompt user.id input freshId now).updatedAt = now ∧
    (mkPrompt user.id input freshId now).title = input.title ∧
    (mkPrompt user.id input freshId now).promptText = input.promptText ∧
    (mkPrompt user.id input freshId now).category = input.category.join := by
  refine ⟨rfl, rfl, ?_, ?_, rfl, rfl, rfl, rfl, rfl, rfl, rfl⟩
  · intro h
    simp [mkPrompt, h]
  · intro b h
    simp [mkPrompt, h]

/-- A concrete createPrompt input with isActive unspecified. -/
def wPromptInput : CreatePromptInput := { title := "Stress log", promptText := "What felt heavy?" }

/-- Witness for C8: the concrete created prompt has isSystem false, isActive
defaulted to true, and the caller as its owner. -/
theorem createPrompt_fields_witness :
    (mkPrompt "u1" wPromptInput "p9" 7).isSystem = false ∧
    (mkPrompt "u1" wPromptInput "p9" 7).isActive = true ∧
    (mkPrompt "u1" wPromptInput "p9" 7).userId = some "u1" ∧
    createPrompt (some ⟨"u1"⟩) wPromptInput "p9" 7 wStore =
      (.ok (mkPrompt "u1" wPromptInput "p9" 7),
        { wStore with prompts := wStore.prompts ++ [mkPrompt "u1" wPromptInput "p9" 7] }) := by
  have h := createPrompt_fields ⟨"u1"⟩ wPromptInput "p9" 7 wStore
  exact ⟨h.2.1, h.2.2.1 rfl, h.2.2.2.2.2.1, h.1⟩

/-- C5: listEntries with valid page/pageSize returns the caller's entries
ordered by entryDate descending, windowed by offset = (page-1)*pageSize and
LIMIT pageSize, together with total = the count of all entries owned by the
caller, independent of the page window. -/
theorem listEntries_pagination (user : User) (page pageSize : Nat) (s : Store)
    (hpage : 1 ≤ page) (hsize1 : 1 ≤ pageSize) (hsize2 : pageSize ≤ 100) :
    ∃ r, listEntries (some user) ⟨page, pageSize⟩ s = (.ok r, s) ∧
      r.items =
        ((sortByDesc Entry.entryDate (s.entries.filter fun e => e.userId == user.id)).drop
          ((page - 1) * pageSize)).take pageSize ∧
      r.total = (s.entries.filter fun e => e.userId == user.id).length ∧
      (∀ e ∈ r.items, e.userId = user.id ∧ e ∈ s.entries) ∧
      List.Pairwise (fun a b => b.entryDate ≤ a.entryDate) r.items ∧
      r.items.length = min pageSize (r.total - (page - 1) * pageSize) ∧
      r.page = page ∧ r.pageSize = pageSize := by
  refine ⟨_, rfl, rfl, rfl, ?_, ?_, ?_, rfl, rfl⟩
  · intro e he
    have h1 : e ∈ sortByDesc Entry.entryDate (s.entries.filter fun x => x.userId == user.id) :=
      List.mem_of_mem_drop (List.mem_of_mem_take he)
    have h2 := List.mem_filter.mp (mem_sortByDesc.mp h1)
    exact ⟨by simpa using h2.2, h2.1⟩
  · have hs := pairwise_sortByDesc Entry.entryDate
      (s.entries.filter fun e => e.userId == user.id)
    have hsub :
        (((sortByDesc Entry.entryDate (s.entries.filter fun e => e.userId == user.id)).drop
            ((page - 1) * pageSize)).take pageSize).Sublist
          (sortByDesc Entry.entryDate (s.entries.filter fun e => e.userId == user.id)) :=
      (List.take_sublist _ _).trans (List.drop_sublist _ _)
    exact hs.sublist hsub
  · show (_ : List Entry).length = _
    rw [List.length_take, List.length_drop, length_sortByDesc]

/-- The i-th of 25 concrete entries owned by u1: entryDate i. -/
def wEntryN (i : Nat) : Entry :=
  { id := "e" ++ toString i, userId := "u1", entryDate := i, moodScore := none,
    moodLabel := none, tags := none, title := none, body := none, promptId := none,
    createdAt := i, updatedAt := i }

/-- A store holding 25 entries owned by u1 (entryDate 0..24). -/
def wBigStore : Store := { entries := (List.range 25).map wEntryN, prompts := [] }

/-- Witness for C5: page 2 with pageSize 10 over 25 owned entries yields 10
items and total 25. -/
theorem listEntries_pagination_witness :
    1 ≤ 2 ∧ 1 ≤ 10 ∧ 10 ≤ 100 ∧
    ∃ r, listEntries (some ⟨"u1"⟩) ⟨2, 10⟩ wBigStore = (.ok r, wBigStore) ∧
      r.total = 25 ∧ r.items.length = 10 := by
  refine ⟨by decide, by decide, by decide, ?_⟩
  rcases listEntries_pagination ⟨"u1"⟩ 2 10 wBigStore (by decide) (by decide) (by decide) with
    ⟨r, hr, hitems, htotal, hmem, hsorted, hlen, hp, hps⟩
  have h25 : (wBigStore.entries.filter fun e => e.userId == "u1").length = 25 := by decide
  refine ⟨r, hr, ?_, ?_⟩
  · rw [htotal]
    exact h25
  · rw [hlen, htotal, h25]
    decide

/-- C4: on an owned record, updateEntry (and updatePrompt) applies a sparse
patch: the update statement patches exactly the matching rows; omitted fields
keep their stored values; present fields (including an explicit null, and for
prompts a present non-empty title/promptText, a present category possibly
null, a present isActive) overwrite; updatedAt is always set to now; and the
empty patch (only the id) changes nothing but updatedAt. -/
theorem sparse_patch_semantics :
    (∀ (user : User) (input : UpdateEntryInput) (now : Nat) (s : Store),
      (∃ e ∈ s.entries, entryKeyMatch input.id user.id e = true) →
      updateEntry (some user) input now s =
        (.ok input.id,
          { s with entries :=
              s.entries.map (entryStep input.id user.id (entryUpdateData input now)) })) ∧
    (∀ (input : UpdateEntryInput) (now : Nat) (e : Entry),
      (applyEntryPatch (entryUpdateData input now) e).updatedAt = now ∧
      (input.entryDate = none →
        (applyEntryPatch (entryUpdateData input now) e).entryDate = e.entryDate) ∧
      (∀ v, input.entryDate = some v →
        (applyEntryPatch (entryUpdateData input now) e).entryDate = v) ∧
      (input.moodScore = none →
        (applyEntryPatch (entryUpdateData input now) e).moodScore = e.moodScore) ∧
      (∀ v, input.moodScore = some v →
        (applyEntryPatch (entryUpdateData input now) e).moodScore = v) ∧
      (input.moodLabel = none →
        (applyEntryPatch (entryUpdateData input now) e).moodLabel = e.moodLabel) ∧
      (∀ v, input.moodLabel = some v →
        (applyEntryPatch (entryUpdateData input now) e).moodLabel = v) ∧
      (input.tags = none →
        (applyEntryPatch (entryUpdateData input now) e).tags = e.tags) ∧
      (∀ v, input.tags = some v →
        (applyEntryPatch (entryUpdateData input now) e).tags = v) ∧
      (input.title = none →
        (applyEntryPatch (entryUpdateData input now) e).title = e.title) ∧
      (∀ v, input.title = some v →
        (applyEntryPatch (entryUpdateData input now) e).title = v) ∧
      (input.body = none →
        (applyEntryPatch (entryUpdateData input now) e).body = e.body) ∧
      (∀ v, input.body = some v →
        (applyEntryPatch (entryUpdateData input now) e).body = v) ∧
      (input.promptId = none →
        (applyEntryPatch (entryUpdateData input now) e).promptId = e.promptId) ∧
      (∀ v, input.promptId = some v →
        (applyEntryPatch (entryUpdateData input now) e).promptId = v) ∧
      (applyEntryPatch (entryUpdateData input now) e).id = e.id ∧
      (applyEntryPatch (entryUpdateData input now) e).userId = e.userId ∧
      (applyEntryPatch (entryUpdateData input now) e).createdAt = e.createdAt) ∧
    (∀ (id : String) (now : Nat) (e : Entry),
      applyEntryPatch (entryUpdateData { id := id } now) e = { e with updatedAt := now }) ∧
    (∀ (user : User) (input : UpdatePromptInput) (now : Nat) (s : Store),
      (∃ q ∈ s.prompts, promptKeyMatch input.id user.id q = true) →
      updatePrompt (some user) input now s =
        (.ok input.id,
          { s with prompts :=
              s.prompts.map (promptStep input.id user.id (promptUpdateData input now)) })) ∧
    (∀ (input : UpdatePromptInput) (now : Nat) (q : Prompt),
      (applyPromptPatch (promptUpdateData input now) q).updatedAt = now ∧
      (input.title = none →
        (applyPromptPatch (promptUpdateData input now) q).title = q.title) ∧
      (∀ t, input.title = some t → t.isEmpty = false →
        (applyPromptPatch (promptUpdateData input now) q).title = t) ∧
      (input.promptText = none →
        (applyPromptPatch (promptUpdateData input now) q).promptText = q.promptText) ∧
      (∀ t, input.promptText = some t → t.isEmpty = false →
        (applyPromptPatch (promptUpdateData input now) q).promptText = t) ∧
      (input.category = none →
        (applyPromptPatch (promptUpdateData input now) q).category = q.category) ∧
      (∀ v, input.category = some v →
        (applyPromptPatch (promptUpdateData input now) q).category = v) ∧
      (input.isActive = none →
        (applyPromptPatch (promptUpdateData input now) q).isActive = q.isActive) ∧
      (∀ b, input.isActive = some b →
        (applyPromptPatch (promptUpdateData input now) q).isActive = b) ∧
      (applyPromptPatch (promptUpdateData input now) q).id = q.id ∧
      (applyPromptPatch (promptUpdateData input now) q).userId = q.userId ∧
      (applyPromptPatch (promptUpdateData input now) q).isSystem = q.isSystem ∧
      (applyPromptPatch (promptUpdateData input now) q).createdAt = q.createdAt) ∧
    (∀ (id : String) (now : Nat) (q : Prompt),
      applyPromptPatch (promptUpdateData { id := id } now) q = { q with updatedAt := now }) := by
  refine ⟨?_, ?_, ?_, ?_, ?_, ?_⟩
  · intro user input now s hex
    rcases filter_head?_eq_some hex with ⟨y, hy⟩
    simp [updateEntry, requireUser, hy]
  · intro input now e
    refine ⟨rfl, ?_, ?_, ?_, ?_, ?_, ?_, ?_, ?_, ?_, ?_, ?_, ?_, ?_, ?_, rfl, rfl, rfl⟩ <;>
      first
      | (intro h; simp [applyEntryPatch, entryUpdateData, h])
      | (intro v h; simp [applyEntryPatch, entryUpdateData, h])
  · intro id now e
    rfl
  · intro user input now s hex
    rcases filter_head?_eq_some hex with ⟨y, hy⟩
    simp [updatePrompt, requireUser, hy]
  · intro input now q
    refine ⟨rfl, ?_, ?_, ?_, ?_, ?_, ?_, ?_, ?_, rfl, rfl, rfl, rfl⟩ <;>
      first
      | (intro t h hne; simp [applyPromptPatch, promptUpdateData, h, hne])
      | (intro h; simp [applyPromptPatch, promptUpdateData, h])
      | (intro v h; simp [applyPromptPatch, promptUpdateData, h])
  · intro id now q
    rfl

/-- Witness for C4: a concrete update by u1 on entry e1 setting moodScore to
an explicit null patches exactly the matching row; the patched entry has
moodScore cleared, moodLabel untouched, and updatedAt refreshed. -/
theorem sparse_patch_semantics_witness :
    updateEntry (some ⟨"u1"⟩) { id := "e1", moodScore := some none } 9 wStore =
      (.ok "e1",
        { wStore with entries := wStore.entries.map (entryStep "e1" "u1" (entryUpdateData { id := "e1", moodScore := some none } 9)) }) ∧
    (applyEntryPatch (entryUpdateData { id := "e1", moodScore := some none } 9) wEntry).moodScore
      = none ∧
    (applyEntryPatch (entryUpdateData { id := "e1", moodScore := some none } 9) wEntry).moodLabel
      = wEntry.moodLabel ∧
    (applyEntryPatch (entryUpdateData { id := "e1", moodScore := some none } 9) wEntry).updatedAt
      = 9 ∧
    applyEntryPatch (entryUpdateData { id := "e1" } 9) wEntry = { wEntry with updatedAt := 9 } := by
  have h := sparse_patch_semantics
  have hfields := h.2.1 { id := "e1", moodScore := some none } 9 wEntry
  refine ⟨h.1 ⟨"u1"⟩ { id := "e1", moodScore := some none } 9 wStore
      ⟨wEntry, by decide, by decide⟩,
    hfields.2.2.2.2.1 none rfl, hfields.2.2.2.2.2.1 rfl, hfields.1,
    h.2.2.1 "e1" 9 wEntry⟩

theorem map_congr_fun {f g : α → β} (l : List α) (h : ∀ a, f a = g a) :
    l.map f = l.map g := by
  induction l with
  | nil => rfl
  | cons a l ih => rw [List.map_cons, List.map_cons, h a, ih]

theorem filter_map_key {f : α → α} {p : α → Bool} (hpf : ∀ x, p (f x) = p x) (l : List α) :
    (l.map f).filter p = (l.filter p).map f := by
  induction l with
  | nil => rfl
  | cons a l ih =>
    rw [List.map_cons, List.filter_cons, List.filter_cons, hpf a]
    cases hp : p a
    · simpa using ih
    · simp [ih]

theorem entryKeyMatch_applyEntryPatch (id uid : String) (p : EntryPatch) (e : Entry) :
    entryKeyMatch id uid (applyEntryPatch p e) = entryKeyMatch id uid e := rfl

theorem entryStep_key (id uid : String) (p : EntryPatch) (e : Entry) :
    entryKeyMatch id uid (entryStep id uid p e) = entryKeyMatch id uid e := by
  by_cases hk : entryKeyMatch id uid e = true
  · simp only [entryStep, hk, if_true, entryKeyMatch_applyEntryPatch]
  · simp only [entryStep, if_neg hk]

theorem applyEntryPatch_idem (input : UpdateEntryInput) (t1 t2 : Nat) (e : Entry) :
    applyEntryPatch (entryUpdateData input t2) (applyEntryPatch (entryUpdateData input t1) e) =
      applyEntryPatch (entryUpdateData input t2) e := by
  simp [applyEntryPatch, entryUpdateData, getD_getD]

theorem entryStep_idem (id uid : String) (input : UpdateEntryInput) (t1 t2 : Nat) (e : Entry) :
    entryStep id uid (entryUpdateData input t2) (entryStep id uid (entryUpdateData input t1) e) =
      entryStep id uid (entryUpdateData input t2) e := by
  by_cases hk : entryKeyMatch id uid e = true
  · simp only [entryStep, hk, if_true, entryKeyMatch_applyEntryPatch,
      applyEntryPatch_idem]
  · simp only [entryStep, if_neg hk]

theorem updateEntry_notFound (user : User) (input : UpdateEntryInput) (now : Nat) (s : Store)
    (h : (s.entries.filter (entryKeyMatch input.id user.id)).head? = none) :
    updateEntry (some user) input now s = (.error .notFound, s) := by
  simp [updateEntry, requireUser, h]

theorem updateEntry_ok (user : User) (input : UpdateEntryInput) (now : Nat) (s : Store)
    (e0 : Entry) (h : (s.entries.filter (entryKeyMatch input.id user.id)).head? = some e0) :
    updateEntry (some user) input now s =
      (.ok input.id,
        { s with entries :=
            s.entries.map (entryStep input.id user.id (entryUpdateData input now)) }) := by
  simp [updateEntry, requireUser, h]

/-- C7: repeating the same updateEntry patch is idempotent: the store after
the second application (at clock t2) equals the store after a single
application at t2; with the same clock reading, the repeated call returns
exactly the same result and store as the first one. -/
theorem updateEntry_idempotent (user : User) (input : UpdateEntryInput) (t1 t2 : Nat)
    (s : Store) :
    (updateEntry (some user) input t2 (updateEntry (some user) input t1 s).2).2 =
      (updateEntry (some user) input t2 s).2 ∧
    updateEntry (some user) input t1 (updateEntry (some user) input t1 s).2 =
      updateEntry (some user) input t1 s := by
  have main : ∀ t t' : Nat,
      updateEntry (some user) input t' (updateEntry (some user) input t s).2 =
        updateEntry (some user) input t' s := by
    intro t t'
    cases h : (s.entries.filter (entryKeyMatch input.id user.id)).head? with
    | none => rw [updateEntry_notFound user input t s h]
    | some e0 =>
      have h1 : (updateEntry (some user) input t s).2 =
          { s with entries :=
              s.entries.map (entryStep input.id user.id (entryUpdateData input t)) } := by
        rw [updateEntry_ok user input t s e0 h]
      have hf1 : (((s.entries.map (entryStep input.id user.id (entryUpdateData input t)))).filter
          (entryKeyMatch input.id user.id)).head? =
          some (entryStep input.id user.id (entryUpdateData input t) e0) := by
        rw [filter_map_key (fun e => entryStep_key input.id user.id (entryUpdateData input t) e),
          List.head?_map, h]
        rfl
      have hmaps : (s.entries.map (entryStep input.id user.id (entryUpdateData input t))).map
          (entryStep input.id user.id (entryUpdateData input t')) =
          s.entries.map (entryStep input.id user.id (entryUpdateData input t')) := by
        rw [List.map_map]
        exact map_congr_fun _ fun a => entryStep_idem input.id user.id input t t' a
      rw [h1, updateEntry_ok user input t' _ _ hf1, updateEntry_ok user input t' s e0 h]
      simp [hmaps]
  exact ⟨congrArg Prod.snd (main t1 t2), main t1 t1⟩

/-- C9: the updateEntry patch carries `entryDate` exactly when the input gives
a date (the input field has no null state, unlike the other optional fields):
when omitted the stored entryDate is untouched, when given it becomes the
given date, and createEntry always stamps a concrete date (given or now), so
a stored entryDate is never null. -/
theorem entryDate_no_null (input : UpdateEntryInput) (now : Nat) (e : Entry) :
    (entryUpdateData input now).entryDate = input.entryDate ∧
    (input.entryDate = none →
      (applyEntryPatch (entryUpdateData input now) e).entryDate = e.entryDate) ∧
    (∀ d, input.entryDate = some d →
      (applyEntryPatch (entryUpdateData input now) e).entryDate = d) ∧
    (∀ (cinput : CreateEntryInput) (uid freshId : String),
      (mkEntry uid cinput freshId now).entryDate = cinput.entryDate.getD now) := by
  refine ⟨rfl, ?_, ?_, fun _ _ _ => rfl⟩
  · intro h
    simp [applyEntryPatch, entryUpdateData, h]
  · intro d h
    simp [applyEntryPatch, entryUpdateData, h]

/-- Witness for C9: the empty patch leaves wEntry's entryDate at 10, a patch
with entryDate 33 overwrites it, and creating with no date stamps now. -/
theorem entryDate_no_null_witness :
    (entryUpdateData { id := "e1" } 9).entryDate = none ∧
    (applyEntryPatch (entryUpdateData { id := "e1" } 9) wEntry).entryDate = 10 ∧
    (applyEntryPatch (entryUpdateData { id := "e1", entryDate := some 33 } 9) wEntry).entryDate
      = 33 ∧
    (mkEntry "u1" {} "e9" 42).entryDate = 42 := by
  have h1 := entryDate_no_null { id := "e1" } 9 wEntry
  have h2 := entryDate_no_null { id := "e1", entryDate := some 33 } 9 wEntry
  have h3 := entryDate_no_null { id := "e1" } 42 wEntry
  exact ⟨h1.1, h1.2.1 rfl, h2.2.2.1 33 rfl, h3.2.2.2 {} "u1" "e9"⟩

theorem applyPromptPatch_userId (p : PromptPatch) (q : Prompt) :
    (applyPromptPatch p q).userId = q.userId := rfl

theorem createEntry_prompts (ctx : Option User) (input : CreateEntryInput) (freshId : String)
    (now : Nat) (s : Store) : ((createEntry ctx input freshId now s).2).prompts = s.prompts := by
  cases ctx <;> rfl

theorem updateEntry_prompts (ctx : Option User) (input : UpdateEntryInput) (now : Nat)
    (s : Store) : ((updateEntry ctx input now s).2).prompts = s.prompts := by
  cases ctx with
  | none => rfl
  | some user =>
    cases h : (s.entries.filter (entryKeyMatch input.id user.id)).head? <;>
      simp [updateEntry, requireUser, h]

theorem deleteEntry_prompts (ctx : Option User) (input : EntryIdInput)
    (s : Store) : ((deleteEntry ctx input s).2).prompts = s.prompts := by
  cases ctx with
  | none => rfl
  | some user =>
    cases h : (s.entries.filter (entryKeyMatch input.id user.id)).head? <;>
      simp [deleteEntry, requireUser, h]

theorem getEntry_store (ctx : Option User) (input : EntryIdInput) (s : Store) :
    (getEntry ctx input s).2 = s := by
  cases ctx with
  | none => rfl
  | some user =>
    cases h : (s.entries.filter (entryKeyMatch input.id user.id)).head? <;>
      simp [getEntry, requireUser, h]

theorem listEntries_store (ctx : Option User) (input : ListEntriesInput) (s : Store) :
    (listEntries ctx input s).2 = s := by
  cases ctx <;> rfl

theorem listPrompts_store (ctx : Option User) (input : ListPromptsInput) (s : Store) :
    (listPrompts ctx input s).2 = s := by
  cases ctx <;> rfl

theorem runOp_null_prompt (op : ApiOp) (s : Store) (p : Prompt)
    (hmem : p ∈ (runOp s op).prompts) (hnull : p.userId = none) : p ∈ s.prompts := by
  cases op with
  | doCreateEntry ctx input freshId now => simpa [runOp, createEntry_prompts] using hmem
  | doUpdateEntry ctx input now => simpa [runOp, updateEntry_prompts] using hmem
  | doDeleteEntry ctx input => simpa [runOp, deleteEntry_prompts] using hmem
  | doGetEntry ctx input => simpa [runOp, getEntry_store] using hmem
  | doListEntries ctx input => simpa [runOp, listEntries_store] using hmem
  | doListPrompts ctx input => simpa [runOp, listPrompts_store] using hmem
  | doCreatePrompt ctx input freshId now =>
    cases ctx with
    | none => exact hmem
    | some user =>
      simp only [runOp, createPrompt, requireUser] at hmem
      rcases List.mem_append.mp hmem with hmem | hmem
      · exact hmem
      · exfalso
        rcases List.mem_singleton.mp hmem with rfl
        cases hnull
  | doUpdatePrompt ctx input now =>
    cases ctx with
    | none => exact hmem
    | some user =>
      cases h : (s.prompts.filter (promptKeyMatch input.id user.id)).head? with
      | none =>
        simp only [runOp] at hmem
        simpa [updatePrompt, requireUser, h] using hmem
      | some q0 =>
        simp only [runOp] at hmem
        rw [show (updatePrompt (some user) input now s).2 =
            { s with prompts :=
                s.prompts.map (promptStep input.id user.id (promptUpdateData input now)) } from
          by simp [updatePrompt, requireUser, h]] at hmem
        rcases List.mem_map.mp hmem with ⟨q, hq, hpq⟩
        by_cases hk : promptKeyMatch input.id user.id q = true
        · exfalso
          have huid : p.userId = q.userId := by
            rw [← hpq]
            simp [promptStep, hk, applyPromptPatch_userId]
          rcases promptKeyMatch_iff.mp hk with ⟨_, hq2⟩
          rw [hnull, hq2] at huid
          cases huid
        · rw [← hpq]
          simpa [promptStep, hk] using hq

/-- C10: every prompt built by createPrompt is owned by the caller (userId is
never null), and across any sequence of API operations every ownerless
(global) prompt present afterwards was already present before: the public API
cannot produce a global prompt. -/
theorem global_prompts_not_creatable :
    (∀ (uid : String) (input : CreatePromptInput) (freshId : String) (now : Nat),
      (mkPrompt uid input freshId now).userId = some uid) ∧
    (∀ (ops : List ApiOp) (s : Store) (p : Prompt),
      p ∈ (runOps s ops).prompts → p.userId = none → p ∈ s.prompts) := by
  refine ⟨fun _ _ _ _ => rfl, ?_⟩
  intro ops
  induction ops with
  | nil => intro s p h _; exact h
  | cons op ops ih =>
    intro s p hmem hnull
    exact runOp_null_prompt op s p (ih (runOp s op) p hmem hnull) hnull

/-- Witness for C10: a concrete created prompt is owned by u1, and the global
prompt found after running a createPrompt call was already in the store. -/
theorem global_prompts_not_creatable_witness :
    (mkPrompt "u1" wPromptInput "p9" 7).userId = some "u1" ∧
    wGlobalPrompt ∈ wStoreG.prompts := by
  have h := global_prompts_not_creatable
  refine ⟨h.1 "u1" wPromptInput "p9" 7, ?_⟩
  exact h.2 [.doCreatePrompt (some ⟨"u1"⟩) wPromptInput "p2" 3] wStoreG wGlobalPrompt
    (by decide) rfl

end MoodJournal
